import Mathlib

/-!
Shallow embedding of the invito-backend registration service
(src/handler.rs, src/route.rs, src/schema.rs).

The relational store is modelled as a list of user rows; each SQL statement
of the handlers is translated to the corresponding pure list operation.
Rust panics (string-slice out of bounds, `unwrap` on an `Err`) are made
explicit as a `panic` outcome so that every aborting path of the source is
visible in the total embedding.
-/

namespace Invito

/-- A row of the `users` table (model::UserModel). -/
structure UserModel where
  id : String
  user_name : String
  email : String
  ref_code : String
  added_by_ref_code : Nat
deriving Repr, DecidableEq

/-- Request body of POST /api/users (schema.rs, CreateUserSchema). -/
structure CreateUserSchema where
  user_name : String
  email : String
  ref_code : Option String
deriving Repr, DecidableEq

/-- Query parameters of GET /api/users (schema.rs, FilterOptions).
Both fields are unsigned (`usize` in the source), hence `Nat`. -/
structure FilterOptions where
  page : Option Nat
  limit : Option Nat
deriving Repr, DecidableEq

/-- Outcome of a request handler: a 2xx response carrying a user, a
non-2xx response carrying a message, or a Rust panic. -/
inductive Outcome where
  | ok (status : Nat) (user : UserModel)
  | fail (status : Nat) (message : String)
  | panic (reason : String)
deriving Repr, DecidableEq

/-- Result of `create_user_handler`: the HTTP outcome, the store contents
after the request, and the registration events published on the broadcast
channel (each event is the snapshot of the created user). -/
structure HandlerResult where
  outcome : Outcome
  db : List UserModel
  published : List UserModel
deriving Repr, DecidableEq

/-- The fixed Postgres marker the source string-matches to recognise a
uniqueness violation (handler.rs line 154). -/
def dupKeyMarker : String := "duplicate key value violates unique constraint"

/-- Substring containment on character lists: `needle` occurs contiguously
in `hay` (the semantics of Rust `str::contains` with a string pattern). -/
def listContains (needle : List Char) : List Char → Bool
  | [] => needle.isPrefixOf []
  | c :: t => needle.isPrefixOf (c :: t) || listContains needle t

/-- Substring containment on strings, the executable model of
`String::contains`. -/
def strContains (hay needle : String) : Bool :=
  listContains needle.data hay.data

/-- `UPDATE users SET added_by_ref_code = added_by_ref_code + 1 WHERE id = $1`
(handler.rs lines 105-110): an atomic in-store increment of the matching
row, all other rows and fields untouched. -/
def creditReferrer (db : List UserModel) (uid : String) : List UserModel :=
  db.map fun v =>
    if v.id = uid then { v with added_by_ref_code := v.added_by_ref_code + 1 } else v

/-- `INSERT INTO users ... RETURNING *` (handler.rs lines 127-136): the
store enforces uniqueness of email, user_name and ref_code; on a clash it
reports a duplicate-key error, otherwise the row is appended. -/
def insertUser (db : List UserModel) (u : UserModel) :
    Except String (List UserModel) :=
  if db.any (fun v => v.email == u.email || v.user_name == u.user_name
      || v.ref_code == u.ref_code) then
    .error (dupKeyMarker ++ " on users")
  else
    .ok (db ++ [u])

/-- The characters of a UTF-8 prefix of exactly `n` bytes, the semantics
of the Rust byte slice `&s[0..n]`: `none` when the string has fewer than
`n` bytes or byte `n` is not a character boundary (both panic in Rust). -/
def utf8Take (n : Nat) : List Char → Option (List Char)
  | [] => if n = 0 then some [] else none
  | c :: cs =>
    if n = 0 then some []
    else if c.utf8Size ≤ n then (utf8Take (n - c.utf8Size) cs).map (c :: ·)
    else none

/-- The Rust byte slice `&s[0..n]` as a string: `none` is the panic. -/
def byteSlicePrefix (s : String) (n : Nat) : Option String :=
  (utf8Take n s.data).map String.mk

/-- The new row built by `create_user_handler` (handler.rs lines 122-134):
referral code = the first 3 bytes of the user name (`&body.user_name[0..3]`)
followed by the first 4 bytes of the fresh unique identifier
(`&ref_id[0..4]`), signup counter 0; `none` when either byte slice
panics. -/
def newUserRow (body : CreateUserSchema) (newId refId : String) :
    Option UserModel :=
  match byteSlicePrefix body.user_name 3, byteSlicePrefix refId 4 with
  | some pre, some suf =>
    some ⟨newId, body.user_name, body.email, pre ++ suf, 0⟩
  | _, _ => none

/-- Code generation and insert-publish tail of `create_user_handler`
(handler.rs lines 122-167), entered after the referral step.
The byte slices panic when the string is shorter than the slice or cut off
a character; `data.tx.send(..).unwrap()` panics when the broadcast channel
has zero receivers. -/
def afterReferral (db : List UserModel) (body : CreateUserSchema)
    (newId refId : String) (receivers : Nat) : HandlerResult :=
  match newUserRow body newId refId with
  | none => ⟨.panic "byte index out of bounds of string slice", db, []⟩
  | some nu =>
    match insertUser db nu with
    | .error e =>
      if strContains e dupKeyMarker then
        ⟨.fail 409 "user with that email already exists", db, []⟩
      else
        ⟨.fail 500 e, db, []⟩
    | .ok db2 =>
      if receivers = 0 then
        ⟨.panic "called unwrap on an Err value: SendError", db2, []⟩
      else
        ⟨.ok 201 nu, db2, [nu]⟩

/-- POST /api/users (handler.rs lines 90-168). `newId` is the id the store
assigns to the new row, `refId` the fresh random unique identifier drawn
for the referral code, `receivers` the number of live broadcast
subscribers at publish time. -/
def create_user_handler (db : List UserModel) (body : CreateUserSchema)
    (newId refId : String) (receivers : Nat) : HandlerResult :=
  match body.ref_code with
  | some x =>
    match db.find? (fun u => u.ref_code == x) with
    | some u => afterReferral (creditReferrer db u.id) body newId refId receivers
    | none =>
      ⟨.fail 404 ("User with referral code: " ++ x ++ " not found"), db, []⟩
  | none => afterReferral db body newId refId receivers

/-- A failure reported by the store at the insert step: either a
uniqueness violation on one of the unique columns, or any other store
failure carrying its message. -/
inductive StoreFailure where
  | uniqueViolation (constraintName : String)
  | otherFailure (message : String)
deriving Repr, DecidableEq

/-- The stringified form of a store failure (`e.to_string()`): Postgres
renders a uniqueness violation with the fixed duplicate-key marker
followed by the constraint name. -/
def storeFailureMessage : StoreFailure → String
  | .uniqueViolation c => "error returned from database: " ++ dupKeyMarker ++ " " ++ c
  | .otherFailure m => m

/-- The error arm of the insert match in `create_user_handler`
(handler.rs lines 152-166): status code, status field and message of the
response produced for a failed insert. -/
def insert_error_response (e : StoreFailure) : Nat × String × String :=
  if strContains (storeFailureMessage e) dupKeyMarker then
    (409, "fail", "user with that email already exists")
  else
    (500, "error", storeFailureMessage e)

/-- Outcome of GET /api/user/:id. -/
inductive GetOutcome where
  | ok (status : Nat) (user : UserModel)
  | fail (status : Nat) (message : String)
deriving Repr, DecidableEq

/-- GET /api/user/:id (handler.rs lines 170-198): the path parameter is
bound as `user_name` and the row is fetched with
`SELECT * FROM users WHERE user_name = $1`. -/
def get_user_handler (db : List UserModel) (path : String) : GetOutcome :=
  match db.find? (fun u => u.user_name == path) with
  | some u => .ok 200 u
  | none => .fail 404 (path ++ " not found")

/-- Lexicographic order on character lists, by code point. -/
def charListLe : List Char → List Char → Bool
  | [], _ => true
  | _ :: _, [] => false
  | c :: cs, d :: ds =>
    if c.val < d.val then true
    else if d.val < c.val then false
    else charListLe cs ds

/-- The stable key order of the listing query: lexicographic on id. -/
def idLe (a b : String) : Bool := charListLe a.data b.data

/-- Insert one row into a list kept ordered by id (ORDER BY id). -/
def insertById (u : UserModel) : List UserModel → List UserModel
  | [] => [u]
  | v :: vs => if idLe u.id v.id then u :: v :: vs else v :: insertById u vs

/-- The rows of the users table ordered by the stable key id, as produced
by `SELECT * FROM users ORDER by id`. -/
def sortById (db : List UserModel) : List UserModel := db.foldr insertById []

/-- Outcome of GET /api/users. -/
inductive ListOutcome where
  | ok (status : String) (results : Nat) (users : List UserModel)
  | fail (status : Nat) (message : String)
  | panic (reason : String)
deriving Repr, DecidableEq

/-- Rust unsigned subtraction: the checked result, `none` being the
underflow (overflow-panic) branch. -/
def checkedSub (a b : Nat) : Option Nat :=
  if b ≤ a then some (a - b) else none

/-- The Rust cast `n as i32` on a usize value: wrap to the low 32 bits and
reinterpret as a signed 32-bit integer. -/
def asI32 (n : Nat) : Int :=
  if n % 2 ^ 32 < 2 ^ 31 then ((n % 2 ^ 32 : Nat) : Int)
  else ((n % 2 ^ 32 : Nat) : Int) - 2 ^ 32

/-- GET /api/users (handler.rs lines 54-88). `opts` are the parsed query
parameters (absent query means defaults); `dbFault` tells whether the
SELECT round trip fails for an external reason. The offset
`(page-1)*limit` is computed on `usize` before the query runs, so a page
of 0 underflows; the query itself receives `limit as i32` and
`offset as i32` (handler.rs lines 66-67), so an out-of-range value is
wrapped, and a negative casted value makes Postgres reject the query,
which surfaces as the same 500 as any other query failure. -/
def users_list_handler (db : List UserModel) (opts : Option FilterOptions)
    (dbFault : Bool) : ListOutcome :=
  let o := opts.getD ⟨none, none⟩
  let limit := o.limit.getD 10
  match checkedSub (o.page.getD 1) 1 with
  | none => .panic "attempt to subtract with overflow"
  | some pm1 =>
    if dbFault = true ∨ asI32 limit < 0 ∨ asI32 (pm1 * limit) < 0 then
      .fail 500 "Something bad happened while fetching all user items"
    else
      let users := ((sortById db).drop (asI32 (pm1 * limit)).toNat).take
        (asI32 limit).toNat
      .ok "success" users.length users

/-- Payload of the initial snapshot event the SSE handler emits on
connect (handler.rs lines 44-47): a success status with empty event
data. -/
def connectedPayload : String := "status success, event_data empty"

/-- One item received from the subscription's broadcast stream: `ok` a
forwarded message, `error n` the lag notification after the private queue
overflowed and `n` events were dropped. -/
abbrev BroadcastItem := Except Nat String

/-- The per-item map of the SSE stream (handler.rs line 42):
`Event::default().json_data(i.unwrap())`. `i.unwrap()` on a lag error
panics, modelled as `none`. -/
def sse_map_item (i : BroadcastItem) : Option String :=
  match i with
  | .ok s => some s
  | .error _ => none

/-- The events a subscriber receives from the broadcast part of the SSE
stream, given the sequence of items its queue yields: events are
forwarded in order until the first panicking item, which terminates the
stream (the Bool records whether it panicked). -/
def sse_stream : List BroadcastItem → List String × Bool
  | [] => ([], false)
  | i :: rest =>
    match sse_map_item i with
    | none => ([], true)
    | some e =>
      let (es, p) := sse_stream rest
      (e :: es, p)

/-- GET live-updates endpoint (handler.rs lines 35-52): one initial
connected snapshot, then the broadcast stream mapped item by item. -/
def sse_handler (items : List BroadcastItem) : List String × Bool :=
  let (es, p) := sse_stream items
  (connectedPayload :: es, p)

end Invito

namespace Invito

/-! Helper lemmas shared by the claim theorems. -/

lemma listContains_of_isPrefixOf (needle hay : List Char)
    (h : needle.isPrefixOf hay = true) : listContains needle hay = true := by
  cases hay with
  | nil => simpa [listContains] using h
  | cons c t => simp [listContains, h]

lemma listContains_append (pre needle suf : List Char) :
    listContains needle (pre ++ (needle ++ suf)) = true := by
  induction pre with
  | nil =>
    refine listContains_of_isPrefixOf _ _ ?_
    rw [List.isPrefixOf_iff_prefix]
    exact List.prefix_append needle suf
  | cons c p ih => simp [listContains, ih]

lemma strContains_unique_message (c : String) :
    strContains (storeFailureMessage (.uniqueViolation c)) dupKeyMarker = true := by
  show listContains dupKeyMarker.data
    ("error returned from database: " ++ dupKeyMarker ++ " " ++ c).data = true
  have h : ("error returned from database: " ++ dupKeyMarker ++ " " ++ c).data =
      "error returned from database: ".data ++ (dupKeyMarker.data ++ (" " ++ c).data) := by
    simp [String.data_append]
  rw [h]
  exact listContains_append _ _ _

lemma afterReferral_ok_eq (db : List UserModel) (body : CreateUserSchema)
    (newId refId : String) (recv : Nat) (u : UserModel)
    (h : (afterReferral db body newId refId recv).outcome = .ok 201 u) :
    newUserRow body newId refId = some u ∧
    afterReferral db body newId refId recv = ⟨.ok 201 u, db ++ [u], [u]⟩ := by
  unfold afterReferral at h ⊢
  revert h
  split
  · intro h; exact absurd h (by simp)
  · rename_i nu hnu
    split
    · split
      · intro h; exact absurd h (by simp)
      · intro h; exact absurd h (by simp)
    · rename_i db2 heq
      split
      · intro h; exact absurd h (by simp)
      · intro h
        have hu : nu = u := by simpa using h
        subst hu
        have hdb2 : db2 = db ++ [nu] := by
          unfold insertUser at heq
          revert heq
          split
          · intro heq; exact absurd heq (by simp)
          · intro heq; simpa using heq.symm
        exact ⟨hnu, by rw [hdb2]⟩

lemma newUserRow_some (body : CreateUserSchema) (newId refId : String)
    (u : UserModel) (h : newUserRow body newId refId = some u) :
    ∃ pre suf, byteSlicePrefix body.user_name 3 = some pre ∧
      byteSlicePrefix refId 4 = some suf ∧
      u = ⟨newId, body.user_name, body.email, pre ++ suf, 0⟩ := by
  unfold newUserRow at h
  revert h
  split
  · rename_i pre suf h1 h2
    intro h
    injection h with h
    exact ⟨pre, suf, h1, h2, h.symm⟩
  all_goals intro h; exact absurd h (by simp)

lemma asI32_of_lt (n : Nat) (h : n < 2 ^ 31) : asI32 n = (n : Int) := by
  unfold asI32
  have h32 : n % 2 ^ 32 = n := Nat.mod_eq_of_lt (lt_trans h (by norm_num))
  rw [h32, if_pos h]

lemma users_list_handler_some {db : List UserModel}
    {opts : Option FilterOptions} {dbFault : Bool} {pm1 : Nat}
    (hc : checkedSub ((opts.getD ⟨none, none⟩).page.getD 1) 1 = some pm1) :
    users_list_handler db opts dbFault =
      if dbFault = true
          ∨ asI32 ((opts.getD ⟨none, none⟩).limit.getD 10) < 0
          ∨ asI32 (pm1 * (opts.getD ⟨none, none⟩).limit.getD 10) < 0 then
        .fail 500 "Something bad happened while fetching all user items"
      else
        .ok "success"
          (((sortById db).drop
              (asI32 (pm1 * (opts.getD ⟨none, none⟩).limit.getD 10)).toNat).take
            (asI32 ((opts.getD ⟨none, none⟩).limit.getD 10)).toNat).length
          (((sortById db).drop
              (asI32 (pm1 * (opts.getD ⟨none, none⟩).limit.getD 10)).toNat).take
            (asI32 ((opts.getD ⟨none, none⟩).limit.getD 10)).toNat) := by
  simp only [users_list_handler]
  rw [hc]

lemma handler_no_ref {db : List UserModel} {body : CreateUserSchema}
    {newId refId : String} {recv : Nat} (h : body.ref_code = none) :
    create_user_handler db body newId refId recv =
      afterReferral db body newId refId recv := by
  obtain ⟨un, em, rc⟩ := body
  obtain rfl : rc = none := h
  rfl

lemma handler_ref_missing {db : List UserModel} {body : CreateUserSchema}
    {newId refId x : String} {recv : Nat} (h : body.ref_code = some x)
    (hf : db.find? (fun v => v.ref_code == x) = none) :
    create_user_handler db body newId refId recv =
      ⟨.fail 404 ("User with referral code: " ++ x ++ " not found"), db, []⟩ := by
  obtain ⟨un, em, rc⟩ := body
  obtain rfl : rc = some x := h
  simp only [create_user_handler]
  rw [hf]

lemma handler_ref_found {db : List UserModel} {body : CreateUserSchema}
    {newId refId x : String} {recv : Nat} {r : UserModel}
    (h : body.ref_code = some x)
    (hf : db.find? (fun v => v.ref_code == x) = some r) :
    create_user_handler db body newId refId recv =
      afterReferral (creditReferrer db r.id) body newId refId recv := by
  obtain ⟨un, em, rc⟩ := body
  obtain rfl : rc = some x := h
  simp only [create_user_handler]
  rw [hf]

/-! The claims. -/

/-- C1: for every registration whose body carries a referral code matching
no existing user, `create_user_handler` returns a 404 response, the store
is unchanged (no user row inserted) and no event is published. -/
theorem create_user_unknown_ref_404 (db : List UserModel)
    (body : CreateUserSchema) (newId refId x : String) (recv : Nat)
    (hx : body.ref_code = some x)
    (hnone : db.find? (fun v => v.ref_code == x) = none) :
    create_user_handler db body newId refId recv =
      ⟨.fail 404 ("User with referral code: " ++ x ++ " not found"), db, []⟩ :=
  handler_ref_missing hx hnone

/-- C1 witness: a concrete registration citing an unknown referral code. -/
theorem create_user_unknown_ref_404_witness :
    create_user_handler [⟨"u1", "ann", "a@x.com", "ann9f3a", 0⟩]
        ⟨"bob", "b@x.com", some "nosuchcode"⟩ "u2" "17c4aaaa" 1 =
      ⟨.fail 404 ("User with referral code: " ++ "nosuchcode" ++ " not found"),
       [⟨"u1", "ann", "a@x.com", "ann9f3a", 0⟩], []⟩ :=
  create_user_unknown_ref_404 _ _ _ _ "nosuchcode" _ rfl (by decide)

/-- C2: for every successful registration with a referral code resolving to
referrer `r`, the resulting store is the old store with exactly the rows of
id `r.id` credited by one (all their other fields kept, every other row
kept verbatim) plus the single new user row; in particular the credited
copy of `r` is in the store, and every row other than the referrer is
unchanged. -/
theorem create_user_credits_referrer_by_one (db : List UserModel)
    (body : CreateUserSchema) (newId refId x : String) (recv : Nat)
    (r u : UserModel)
    (hx : body.ref_code = some x)
    (hr : db.find? (fun v => v.ref_code == x) = some r)
    (hok : (create_user_handler db body newId refId recv).outcome = .ok 201 u) :
    (create_user_handler db body newId refId recv).db
        = creditReferrer db r.id ++ [u] ∧
    { r with added_by_ref_code := r.added_by_ref_code + 1 }
        ∈ (create_user_handler db body newId refId recv).db ∧
    (∀ v ∈ db, v.id ≠ r.id →
        v ∈ (create_user_handler db body newId refId recv).db) := by
  rw [handler_ref_found hx hr] at hok ⊢
  obtain ⟨hu, heq⟩ := afterReferral_ok_eq _ _ _ _ _ _ hok
  rw [heq]
  refine ⟨rfl, ?_, ?_⟩
  · have hrmem : r ∈ db := List.mem_of_find?_eq_some hr
    have hmap := List.mem_map_of_mem
      (fun v => if v.id = r.id then
        { v with added_by_ref_code := v.added_by_ref_code + 1 } else v) hrmem
    refine List.mem_append_left _ ?_
    simpa [creditReferrer] using hmap
  · intro v hv hne
    have hmap := List.mem_map_of_mem
      (fun w => if w.id = r.id then
        { w with added_by_ref_code := w.added_by_ref_code + 1 } else w) hv
    refine List.mem_append_left _ ?_
    simpa [creditReferrer, hne] using hmap

/-- C2 witness: bob registers with the referral code of ann; the store ends
with ann credited once and bob appended. -/
theorem create_user_credits_referrer_by_one_witness :
    (create_user_handler [⟨"u1", "ann", "a@x.com", "ann9f3a", 0⟩]
        ⟨"bob", "b@x.com", some "ann9f3a"⟩ "u2" "17c4aaaa" 1).db
        = creditReferrer [⟨"u1", "ann", "a@x.com", "ann9f3a", 0⟩] "u1"
            ++ [⟨"u2", "bob", "b@x.com", "bob17c4", 0⟩] ∧
    ({ (⟨"u1", "ann", "a@x.com", "ann9f3a", 0⟩ : UserModel) with
        added_by_ref_code := 0 + 1 }
        ∈ (create_user_handler [⟨"u1", "ann", "a@x.com", "ann9f3a", 0⟩]
            ⟨"bob", "b@x.com", some "ann9f3a"⟩ "u2" "17c4aaaa" 1).db) ∧
    (∀ v ∈ [(⟨"u1", "ann", "a@x.com", "ann9f3a", 0⟩ : UserModel)], v.id ≠ "u1" →
        v ∈ (create_user_handler [⟨"u1", "ann", "a@x.com", "ann9f3a", 0⟩]
            ⟨"bob", "b@x.com", some "ann9f3a"⟩ "u2" "17c4aaaa" 1).db) :=
  create_user_credits_referrer_by_one
    [⟨"u1", "ann", "a@x.com", "ann9f3a", 0⟩]
    ⟨"bob", "b@x.com", some "ann9f3a"⟩ "u2" "17c4aaaa" "ann9f3a" 1
    ⟨"u1", "ann", "a@x.com", "ann9f3a", 0⟩
    ⟨"u2", "bob", "b@x.com", "bob17c4", 0⟩
    rfl (by decide) (by decide)

/-- C3 (code-bug evidence): with zero live subscribers the insert succeeds
and the new row is in the store, yet `tx.send(..).unwrap()` panics, so the
handler does not return 201: publishing does fail the registration. -/
theorem create_user_zero_subscribers_panics :
    create_user_handler [] ⟨"ann", "a@x.com", none⟩ "u1" "9f3a2bc7" 0 =
      ⟨.panic "called unwrap on an Err value: SendError",
       [⟨"u1", "ann", "a@x.com", "ann9f3a", 0⟩], []⟩ := by decide

/-- C4 (code-bug evidence): a 2-character user name makes the byte slice
`&body.user_name[0..3]` panic; the handler aborts with a panic, not with a
typed ValidationError response. -/
theorem create_user_short_name_panics :
    create_user_handler [] ⟨"ab", "a@x.com", none⟩ "u1" "9f3a2bc7" 1 =
      ⟨.panic "byte index out of bounds of string slice", [], []⟩ := by decide

/-- C5 (code-bug evidence): when the subscription queue yields a lag error,
`i.unwrap()` in the SSE stream map panics and the stream terminates; the
event after the lag is never delivered, instead of the subscriber skipping
the missed events and continuing. -/
theorem sse_lag_panics_and_drops_rest :
    sse_handler [.ok "e1", .error 3, .ok "e2"]
      = ([connectedPayload, "e1"], true) := by decide

/-- C6 counterexample: a store holding a row whose id equals the path
parameter, yet the handler answers 404, because the lookup is by
user_name, not by id. -/
theorem get_user_ignores_matching_id :
    (([⟨"7f000001", "ann", "a@x.com", "ann9f3a", 0⟩] : List UserModel).any
        fun u => u.id == "7f000001") = true ∧
    get_user_handler [⟨"7f000001", "ann", "a@x.com", "ann9f3a", 0⟩] "7f000001"
      = .fail 404 ("7f000001" ++ " not found") := by decide

/-- C6 (amended): GET /api/user/:id returns 200 with the first user whose
user_name equals the path parameter when one exists, and 404 otherwise. -/
theorem get_user_matches_user_name (db : List UserModel) (p : String) :
    (∀ u, db.find? (fun v => v.user_name == p) = some u →
        get_user_handler db p = .ok 200 u) ∧
    (db.find? (fun v => v.user_name == p) = none →
        get_user_handler db p = .fail 404 (p ++ " not found")) := by
  constructor
  · intro u h; unfold get_user_handler; rw [h]
  · intro h; unfold get_user_handler; rw [h]

/-- C6 witness: looking up the row by its user_name succeeds with 200. -/
theorem get_user_matches_user_name_witness :
    get_user_handler [⟨"7f000001", "ann", "a@x.com", "ann9f3a", 0⟩] "ann"
      = .ok 200 ⟨"7f000001", "ann", "a@x.com", "ann9f3a", 0⟩ :=
  (get_user_matches_user_name
      [⟨"7f000001", "ann", "a@x.com", "ann9f3a", 0⟩] "ann").1 _ (by decide)

/-- C7: a failed insert is answered 409 exactly when the store failure is a
uniqueness violation (whose stringified message carries the Postgres
duplicate-key marker, the property the handler string-matches on), and 500
for every other store failure; in no case is a 2xx status produced. The
hypothesis states that a non-uniqueness failure message does not
accidentally contain the marker. -/
theorem insert_failure_conflict_iff_unique (e : StoreFailure)
    (hother : ∀ m, e = .otherFailure m → strContains m dupKeyMarker = false) :
    ((∃ c, e = .uniqueViolation c) ↔ (insert_error_response e).1 = 409) ∧
    ((¬ ∃ c, e = .uniqueViolation c) ↔ (insert_error_response e).1 = 500) ∧
    (insert_error_response e).1 ≠ 200 ∧ (insert_error_response e).1 ≠ 201 := by
  cases e with
  | uniqueViolation c =>
    have hm := strContains_unique_message c
    simp [insert_error_response, hm]
  | otherFailure m =>
    have hm := hother m rfl
    simp [insert_error_response, storeFailureMessage, hm]

/-- C7 witness: a uniqueness violation on the email key is answered 409. -/
theorem insert_failure_conflict_iff_unique_witness :
    (insert_error_response (.uniqueViolation "users_email_key")).1 = 409 :=
  (insert_failure_conflict_iff_unique (.uniqueViolation "users_email_key")
      (fun _ h => nomatch h)).1.mp ⟨"users_email_key", rfl⟩

/-- C8 counterexample: the registration with the 4-character user name
éabc succeeds (the slice `&user_name[0..3]` stops after the 3rd byte,
which is a character boundary) and the created ref_code starts with the
2-character, 3-byte prefix éa — not the first 3 characters of the user
name as the claim states. -/
theorem create_user_code_uses_bytes_not_chars :
    (create_user_handler [] ⟨"éabc", "a@x.com", none⟩ "u1" "9f3a2bc7" 1).outcome
      = .ok 201 ⟨"u1", "éabc", "a@x.com", "éa9f3a", 0⟩ ∧
    ("éa9f3a" : String) ≠ "éabc".take 3 ++ "9f3a2bc7".take 4 := by decide

/-- C8 (amended): every successful registration creates a user whose
ref_code is the first 3 bytes of the supplied user_name (the UTF-8 prefix
of byte length 3) followed by the first 4 bytes of the freshly generated
unique identifier, and whose signup counter is 0. -/
theorem create_user_new_code_shape (db : List UserModel)
    (body : CreateUserSchema) (newId refId : String) (recv : Nat)
    (u : UserModel)
    (hok : (create_user_handler db body newId refId recv).outcome = .ok 201 u) :
    (∃ pre suf, byteSlicePrefix body.user_name 3 = some pre ∧
      byteSlicePrefix refId 4 = some suf ∧ u.ref_code = pre ++ suf) ∧
    u.added_by_ref_code = 0 := by
  cases hbc : body.ref_code with
  | none =>
    rw [handler_no_ref hbc] at hok
    obtain ⟨hnu, -⟩ := afterReferral_ok_eq _ _ _ _ _ _ hok
    obtain ⟨pre, suf, h1, h2, hu⟩ := newUserRow_some _ _ _ _ hnu
    subst hu
    exact ⟨⟨pre, suf, h1, h2, rfl⟩, rfl⟩
  | some x =>
    cases hf : db.find? (fun v => v.ref_code == x) with
    | none =>
      rw [handler_ref_missing hbc hf] at hok
      exact absurd hok (by simp)
    | some r =>
      rw [handler_ref_found hbc hf] at hok
      obtain ⟨hnu, -⟩ := afterReferral_ok_eq _ _ _ _ _ _ hok
      obtain ⟨pre, suf, h1, h2, hu⟩ := newUserRow_some _ _ _ _ hnu
      subst hu
      exact ⟨⟨pre, suf, h1, h2, rfl⟩, rfl⟩

/-- C8 witness: registering ann with identifier 9f3a2bc7 yields ref_code
ann9f3a (3-byte prefix ann, 4-byte prefix 9f3a) and counter 0. -/
theorem create_user_new_code_shape_witness :
    (∃ pre suf,
      byteSlicePrefix (⟨"ann", "a@x.com", none⟩ : CreateUserSchema).user_name 3
        = some pre ∧
      byteSlicePrefix "9f3a2bc7" 4 = some suf ∧
      (⟨"u1", "ann", "a@x.com", "ann9f3a", 0⟩ : UserModel).ref_code
        = pre ++ suf) ∧
    (⟨"u1", "ann", "a@x.com", "ann9f3a", 0⟩ : UserModel).added_by_ref_code = 0 :=
  create_user_new_code_shape [] ⟨"ann", "a@x.com", none⟩ "u1" "9f3a2bc7" 1
    ⟨"u1", "ann", "a@x.com", "ann9f3a", 0⟩ (by decide)

/-- C9 counterexample: page 2^31+1 with limit 2 computes the offset
2^32, whose `as i32` cast wraps to 0: the handler succeeds and returns the
first two rows, although the window at row offset (page-1)*limit that the
claim describes is empty. -/
theorem users_list_offset_wraps :
    users_list_handler
        [⟨"u1", "ann", "a@x.com", "ann9f3a", 1⟩,
         ⟨"u2", "bob", "b@x.com", "bob17c4", 0⟩,
         ⟨"u3", "cyd", "c@x.com", "cyd44aa", 0⟩]
        (some ⟨some (2 ^ 31 + 1), some 2⟩) false
      = .ok "success" 2
          [⟨"u1", "ann", "a@x.com", "ann9f3a", 1⟩,
           ⟨"u2", "bob", "b@x.com", "bob17c4", 0⟩] ∧
    ((sortById [⟨"u1", "ann", "a@x.com", "ann9f3a", 1⟩,
         ⟨"u2", "bob", "b@x.com", "bob17c4", 0⟩,
         ⟨"u3", "cyd", "c@x.com", "cyd44aa", 0⟩]).drop
        ((2 ^ 31 + 1 - 1) * 2)).take 2 = [] := by decide

/-- C9 (amended): for every list request whose (defaulted) page is at
least 1 and whose (defaulted) limit and row offset (page-1)*limit are
below 2^31 — so that the `as i32` casts of handler.rs lines 66-67 are
lossless — the handler uses limit defaulting to 10 and page defaulting to
1, computes the offset as (page-1)*limit, and returns status success, the
count of returned rows, and the corresponding window of the rows ordered
by id. -/
theorem users_list_defaults_and_pagination (db : List UserModel)
    (opts : Option FilterOptions)
    (hpage : 1 ≤ (opts.getD ⟨none, none⟩).page.getD 1)
    (hlimit : (opts.getD ⟨none, none⟩).limit.getD 10 < 2 ^ 31)
    (hoffset : ((opts.getD ⟨none, none⟩).page.getD 1 - 1)
        * (opts.getD ⟨none, none⟩).limit.getD 10 < 2 ^ 31) :
    users_list_handler db opts false =
      .ok "success"
        (((sortById db).drop
            (((opts.getD ⟨none, none⟩).page.getD 1 - 1)
              * (opts.getD ⟨none, none⟩).limit.getD 10)).take
          ((opts.getD ⟨none, none⟩).limit.getD 10)).length
        (((sortById db).drop
            (((opts.getD ⟨none, none⟩).page.getD 1 - 1)
              * (opts.getD ⟨none, none⟩).limit.getD 10)).take
          ((opts.getD ⟨none, none⟩).limit.getD 10)) := by
  have hc : checkedSub ((opts.getD ⟨none, none⟩).page.getD 1) 1
      = some ((opts.getD ⟨none, none⟩).page.getD 1 - 1) := by
    unfold checkedSub; rw [if_pos hpage]
  have hl := asI32_of_lt _ hlimit
  have ho := asI32_of_lt _ hoffset
  rw [users_list_handler_some hc, if_neg, hl, ho]
  · simp only [Int.toNat_natCast]
  · rintro (h | h | h)
    · simp at h
    · rw [hl] at h; omega
    · rw [ho] at h; omega

/-- C9 witness: two rows, no query parameters: page 1, limit 10, the whole
table ordered by id, with its count. -/
theorem users_list_defaults_and_pagination_witness :
    users_list_handler
        [⟨"u2", "bob", "b@x.com", "bob17c4", 0⟩,
         ⟨"u1", "ann", "a@x.com", "ann9f3a", 1⟩] none false =
      .ok "success" 2
        [⟨"u1", "ann", "a@x.com", "ann9f3a", 1⟩,
         ⟨"u2", "bob", "b@x.com", "bob17c4", 0⟩] := by
  rw [users_list_defaults_and_pagination
      [⟨"u2", "bob", "b@x.com", "bob17c4", 0⟩,
       ⟨"u1", "ann", "a@x.com", "ann9f3a", 1⟩] none
      (by decide) (by decide) (by decide)]
  rfl

/-- C10: for page=0 the offset computation (page-1)*limit subtracts 1 from
the unsigned value 0; the subtraction underflows and the handler hits the
error branch of the total embedding instead of returning the first page,
for every store and every limit. -/
theorem users_list_page_zero_underflows (db : List UserModel)
    (lim : Option Nat) (fault : Bool) :
    users_list_handler db (some ⟨some 0, lim⟩) fault =
      .panic "attempt to subtract with overflow" := rfl

end Invito
